import Mathlib

/-
Verification of the go-rmq-monitor stuck-queue analyzer, scheduler,
configuration validation and notification dispatch logic.

Shallow embedding conventions:
- Go `time.Time` and `time.Duration` are modelled as `Int` nanoseconds;
  the Go zero `time.Time` corresponds to `0` (`IsZero` becomes `= 0`).
- Go `float64` rate fields are modelled as `Rat` (ordinary ordered values;
  none of the verified paths depend on IEEE special values).
- Go `int` counters are modelled as `Int`.
- Go integer division on durations truncates toward zero, hence `Int.tdiv`.
-/

namespace RmqMonitor

/-! ## Data model (internal/analyzer, internal/rabbitmq) -/

/-- Mirrors analyzer.QueueSnapshot: queue metrics at a point in time. -/
structure QueueSnapshot where
  timestamp : Int
  messagesReady : Int
  consumeRate : Rat
  ackRate : Rat
  consumers : Int
  deriving Repr, DecidableEq

/-- Default snapshot, used only to make the `headI`/`getLastI` list accesses
total; the Go source would panic on the corresponding out-of-range index,
which is unreachable under the guards of the callers below. -/
instance : Inhabited QueueSnapshot := ⟨⟨0, 0, 0, 0, 0⟩⟩

/-- Mirrors rabbitmq.QueueInfo (the fields consumed by the analyzer and the
notification dispatcher). -/
structure QueueInfo where
  name : String
  vhost : String
  messagesReady : Int
  consumers : Int
  consumeRate : Rat
  ackRate : Rat
  publishRate : Rat
  deriving Repr, DecidableEq

instance : Inhabited QueueInfo := ⟨⟨"", "", 0, 0, 0, 0, 0⟩⟩

/-- Mirrors config.DetectionConfig. -/
structure DetectionConfig where
  thresholdChecks : Int
  minMessageCount : Int
  minConsumeRate : Rat
  deriving Repr, DecidableEq

/-- Mirrors analyzer.QueueState (the mutable per-queue record). -/
structure QueueState where
  queueName : String
  history : List QueueSnapshot
  consecutiveStuck : Int
  lastAlertTime : Int
  lastSlackAlert : Int
  lastKnownState : String
  stuckSince : Int
  deriving Repr, DecidableEq

/-- Mirrors analyzer.StuckQueueAlert. -/
structure StuckQueueAlert where
  queueName : String
  timestamp : Int
  messagesReady : Int
  consumers : Int
  consumeRate : Rat
  ackRate : Rat
  consecutiveStuck : Int
  reason : String
  thresholdChecks : Int
  minMessageCount : Int
  minConsumeRate : Rat
  deriving Repr, DecidableEq

/-- Mirrors analyzer.StateTransition. -/
structure StateTransition where
  queueName : String
  fromState : String
  toState : String
  timestamp : Int
  stuckDuration : Int
  queueInfo : QueueInfo
  reason : String
  deriving Repr, DecidableEq

/-- Go zero-valued QueueState as created inside Analyze for a new queue. -/
def initialQueueState (name : String) : QueueState :=
  { queueName := name, history := [], consecutiveStuck := 0, lastAlertTime := 0,
    lastSlackAlert := 0, lastKnownState := "", stuckSince := 0 }

/-- Five minutes in nanoseconds, the alert de-duplication interval in Analyze. -/
def fiveMinutes : Int := 5 * 60 * 1000000000

/-! ## Analyzer (internal/analyzer, part_002 lines 97-296) -/

/-- Mirrors analyzer.isMessageCountStagnant. -/
def isMessageCountStagnant (state : QueueState) (cfg : DetectionConfig) : Bool :=
  if state.history.length < 2 then false
  else
    let recentHistory :=
      if (state.history.length : Int) > cfg.thresholdChecks then
        state.history.drop (state.history.length - cfg.thresholdChecks.toNat)
      else state.history
    let firstCount := recentHistory.headI.messagesReady
    let lastCount := recentHistory.getLastI.messagesReady
    if firstCount ≤ 0 ∧ lastCount ≤ 0 then false
    else if lastCount > firstCount then true
    else if lastCount = firstCount then true
    else
      let checksSpanned : Int := (recentHistory.length : Int) - 1
      let minExpectedDecrease := checksSpanned
      let actualDecrease := firstCount - lastCount
      decide (actualDecrease < minExpectedDecrease)

/-- Mirrors analyzer.isQueueStuck; returns the (stuck, reason) pair. -/
def isQueueStuck (state : QueueState) (cfg : DetectionConfig) : Bool × String :=
  if (state.history.length : Int) < cfg.thresholdChecks then (false, "")
  else
    let latest := state.history.getLastI
    if latest.messagesReady ≤ cfg.minMessageCount then (false, "")
    else
      let hasActivity :=
        decide (cfg.minConsumeRate < 0) || decide (latest.consumeRate ≥ cfg.minConsumeRate)
          || decide (latest.ackRate ≥ cfg.minConsumeRate)
      if !hasActivity then
        if isMessageCountStagnant state cfg then
          if latest.consumers = 0 then
            (true, "no active consumers and messages not being processed")
          else
            (true, "consume rate below threshold and messages not decreasing")
        else (false, "")
      else
        if isMessageCountStagnant state cfg then
          (true, "messages not decreasing despite consumer activity")
        else (false, "")

/-- Snapshot built inside Analyze from a fetched QueueInfo at time now. -/
def snapshotOf (queue : QueueInfo) (now : Int) : QueueSnapshot :=
  { timestamp := now, messagesReady := queue.messagesReady,
    consumeRate := queue.consumeRate, ackRate := queue.ackRate,
    consumers := queue.consumers }

/-- History append-and-trim step of Analyze (keep at most thresholdChecks+1). -/
def updateHistory (cfg : DetectionConfig) (history : List QueueSnapshot)
    (snap : QueueSnapshot) : List QueueSnapshot :=
  let h := history ++ [snap]
  let maxHistory := cfg.thresholdChecks + 1
  if (h.length : Int) > maxHistory then h.drop (h.length - maxHistory.toNat) else h

/-- Loop body of analyzer.Analyze for one queue: appends the snapshot, trims
history, classifies the queue and applies the counter / state-machine /
alert-throttle updates, returning the new state together with the optional
Alert and optional StateTransition emitted for this queue on this call. -/
def analyzeQueueStep (cfg : DetectionConfig) (state : QueueState)
    (queue : QueueInfo) (now : Int) :
    QueueState × Option StuckQueueAlert × Option StateTransition :=
  let history := updateHistory cfg state.history (snapshotOf queue now)
  let st := { state with history := history }
  let res := isQueueStuck st cfg
  if res.1 then
    let reason := res.2
    let cs := st.consecutiveStuck + 1
    let st1 := { st with consecutiveStuck := cs }
    let p2 :=
      if st1.lastKnownState ≠ "stuck" ∧ cs ≥ cfg.thresholdChecks then
        ({ st1 with lastKnownState := "stuck", stuckSince := now },
         some { queueName := queue.name, fromState := "healthy", toState := "stuck",
                timestamp := now, stuckDuration := 0, queueInfo := queue,
                reason := reason })
      else (st1, (none : Option StateTransition))
    let st2 := p2.1
    let p3 :=
      if cs ≥ cfg.thresholdChecks ∧ now - st2.lastAlertTime ≥ fiveMinutes then
        ({ st2 with lastAlertTime := now },
         some { queueName := queue.name, timestamp := now,
                messagesReady := queue.messagesReady, consumers := queue.consumers,
                consumeRate := queue.consumeRate, ackRate := queue.ackRate,
                consecutiveStuck := cs, reason := reason,
                thresholdChecks := cfg.thresholdChecks,
                minMessageCount := cfg.minMessageCount,
                minConsumeRate := cfg.minConsumeRate })
      else (st2, (none : Option StuckQueueAlert))
    (p3.1, p3.2, p2.2)
  else
    let p2 :=
      if st.lastKnownState = "stuck" then
        ({ st with lastKnownState := "healthy" },
         some { queueName := queue.name, fromState := "stuck", toState := "healthy",
                timestamp := now, stuckDuration := now - st.stuckSince,
                queueInfo := queue, reason := "" })
      else (st, (none : Option StateTransition))
    ({ p2.1 with consecutiveStuck := 0 }, none, p2.2)

/-- Folds analyzeQueueStep over a sequence of (QueueInfo, time) samples. -/
def runState (cfg : DetectionConfig) (s : QueueState)
    (inputs : List (QueueInfo × Int)) : QueueState :=
  inputs.foldl (fun st qi => (analyzeQueueStep cfg st qi.1 qi.2).1) s

/-- State of a queue after feeding a sample sequence to the analyzer, starting
from the freshly created state (as Analyze does for an unseen queue). -/
def stateAfter (cfg : DetectionConfig) (name : String)
    (inputs : List (QueueInfo × Int)) : QueueState :=
  runState cfg (initialQueueState name) inputs

/-- Full result of the k-th evaluation in a sample sequence. -/
def stepAt (cfg : DetectionConfig) (name : String)
    (inputs : List (QueueInfo × Int)) (k : Nat) :
    QueueState × Option StuckQueueAlert × Option StateTransition :=
  let pre := stateAfter cfg name (inputs.take k)
  let qi := inputs.getD k (default, 0)
  analyzeQueueStep cfg pre qi.1 qi.2

/-- Alert emitted by the k-th evaluation, if any. -/
def alertAt (cfg : DetectionConfig) (name : String)
    (inputs : List (QueueInfo × Int)) (k : Nat) : Option StuckQueueAlert :=
  (stepAt cfg name inputs k).2.1

/-- StateTransition emitted by the k-th evaluation, if any. -/
def transAt (cfg : DetectionConfig) (name : String)
    (inputs : List (QueueInfo × Int)) (k : Nat) : Option StateTransition :=
  (stepAt cfg name inputs k).2.2

/-! ## Spec-side restatement of the stagnation test (spec.md section 4.1) -/

/-- Window the spec describes: the last min(threshold_checks, history length)
samples of the history. -/
def stagnationWindow (history : List QueueSnapshot) (cfg : DetectionConfig) :
    List QueueSnapshot :=
  history.drop (history.length - min cfg.thresholdChecks.toNat history.length)

/-- Stagnation outcome exactly as the specification words it, on a given
window: not stagnant if first and last are both at most 0; stagnant if the
last count exceeds or equals the first; otherwise stagnant iff the decrease
is below one message per spanned check. Used to compare the specified test
against the implemented isMessageCountStagnant. -/
def stagnantSpec (window : List QueueSnapshot) : Bool :=
  let firstCount := window.headI.messagesReady
  let lastCount := window.getLastI.messagesReady
  if firstCount ≤ 0 ∧ lastCount ≤ 0 then false
  else if lastCount > firstCount then true
  else if lastCount = firstCount then true
  else decide (firstCount - lastCount < (window.length : Int) - 1)

/-! ## Configuration (internal/config, part_002 lines 320-482) -/

/-- Mirrors config.RabbitMQConfig. -/
structure RabbitMQConfig where
  host : String
  port : Int
  username : String
  password : String
  vhost : String
  useTLS : Bool
  deriving Repr, DecidableEq

/-- Mirrors config.QueueConfig: optional per-queue overrides. -/
structure QueueConfig where
  name : String
  checkInterval : Option Int
  thresholdChecks : Option Int
  minMessageCount : Option Int
  minConsumeRate : Option Rat
  deriving Repr, DecidableEq

/-- Mirrors config.MonitorConfig. -/
structure MonitorConfig where
  interval : Int
  detection : DetectionConfig
  queues : List QueueConfig
  deriving Repr, DecidableEq

/-- Mirrors config.LoggingConfig. -/
structure LoggingConfig where
  filePath : String
  level : String
  format : String
  deriving Repr, DecidableEq

/-- Mirrors config.Config. -/
structure Config where
  rabbitmq : RabbitMQConfig
  monitor : MonitorConfig
  logging : LoggingConfig
  deriving Repr, DecidableEq

/-- Mirrors config.QueueConfig.GetDetectionConfig: per-queue overrides merged
over the global defaults, override wins when present. -/
def getDetectionConfig (q : QueueConfig) (globalDefaults : DetectionConfig) :
    DetectionConfig :=
  { thresholdChecks := q.thresholdChecks.getD globalDefaults.thresholdChecks,
    minMessageCount := q.minMessageCount.getD globalDefaults.minMessageCount,
    minConsumeRate := q.minConsumeRate.getD globalDefaults.minConsumeRate }

/-- Mirrors config.QueueConfig.GetCheckInterval. -/
def getCheckInterval (q : QueueConfig) (globalDefault : Int) : Int :=
  q.checkInterval.getD globalDefault

/-- Mirrors config.validate: the error returned by Load for an invalid
configuration, or none on success. Load fails exactly when ReadInConfig,
Unmarshal or validate fails; validate is the only semantic check. -/
def validate (cfg : Config) : Option String :=
  if cfg.rabbitmq.host = "" then some ("rabbitmq.host is required")
  else if cfg.rabbitmq.port ≤ 0 ∨ cfg.rabbitmq.port > 65535 then
    some ("rabbitmq.port must be between 1 and 65535")
  else if cfg.monitor.interval ≤ 0 then some ("monitor.interval must be positive")
  else if cfg.monitor.detection.thresholdChecks < 1 then
    some ("monitor.detection.threshold_checks must be at least 1")
  else if cfg.logging.filePath = "" then some ("logging.file_path is required")
  else none

/-! ## Scheduler due-time test (internal/monitor performCheck, logger.go 374-425) -/

/-- Mirrors the per-queue due test inside Service.performCheck: the boundary is
startTime plus the truncating division of the elapsed time by the interval
(Go int64 division truncates toward zero), and a previously sampled queue is
due iff now has passed that boundary and the last sample predates it; a queue
never sampled is always due. -/
def shouldCheckQueue (startTime now checkInterval : Int)
    (lastCheck : Option Int) : Bool :=
  let timeSinceStart := now - startTime
  let intervalsSinceStart := timeSinceStart.tdiv checkInterval
  let nextCheckTime := startTime + intervalsSinceStart * checkInterval
  match lastCheck with
  | none => true
  | some lc => decide (now - nextCheckTime ≥ 0) && decide (lc < nextCheckTime)

/-- Boundary timestamp as the spec words it: start plus floor of the elapsed
time over the interval, times the interval. -/
def scheduleBoundary (startTime now checkInterval : Int) : Int :=
  startTime + ((now - startTime).fdiv checkInterval) * checkInterval

/-! ## Notification dispatch (internal/monitor handleStateTransition,
logger.go 497-568) -/

/-- Mirrors slack.Config (the fields the dispatch decision reads). -/
structure SlackConfig where
  enabled : Bool
  alertCooldown : Int
  sendRecovery : Bool
  recoveryCooldown : Int
  deriving Repr, DecidableEq

/-- Mirrors Service.handleStateTransition on the successful-delivery path:
given the transition target state, the queue state's shared LastSlackAlert
timestamp and the current time, decides whether a notification is sent and
returns the updated LastSlackAlert value (set to now exactly when sent).
A zero LastSlackAlert is the Go zero time (IsZero), i.e. nothing sent yet. -/
def handleStateTransition (cfg : SlackConfig) (toState : String)
    (lastSlackAlert : Int) (now : Int) : Bool × Int :=
  let cooldownOf : Option Int :=
    if toState = "stuck" then some cfg.alertCooldown
    else if toState = "healthy" then
      if !cfg.sendRecovery then none else some cfg.recoveryCooldown
    else none
  match cooldownOf with
  | none => (false, lastSlackAlert)
  | some cooldown =>
    if lastSlackAlert ≠ 0 ∧ now - lastSlackAlert < cooldown then
      (false, lastSlackAlert)
    else (true, now)

/-! ## Service lifecycle (internal/monitor Start/Stop, logger.go 296-354) -/

/-- Abstraction of the mutex-guarded Service lifecycle fields: the running
flag and the number of close operations performed on the stop channel. The
mutex serializes Start's and Stop's guarded sections, so the sequential model
below is faithful to every interleaving. -/
structure ServiceState where
  running : Bool
  stopCloseCount : Nat
  deriving Repr, DecidableEq

/-- Service state as produced by monitor.New: not running, channel open. -/
def newServiceState : ServiceState := { running := false, stopCloseCount := 0 }

/-- Mirrors Service.Stop: a no-op when not running, otherwise clears the flag
and closes the stop channel (counted, so a double close is observable). -/
def stopService (s : ServiceState) : ServiceState :=
  if !s.running then s
  else { running := false, stopCloseCount := s.stopCloseCount + 1 }

/-- Mirrors the guarded prologue of Service.Start: fails when already
running, otherwise sets the running flag. -/
def startService (s : ServiceState) : ServiceState × Bool :=
  if s.running then (s, true) else ({ s with running := true }, false)

/-- Lifecycle operations whose guarded sections the service mutex serializes. -/
inductive ServiceOp where
  | start
  | stop
  deriving Repr, DecidableEq

/-- Applies one lifecycle operation to the service state. -/
def applyServiceOp (s : ServiceState) (op : ServiceOp) : ServiceState :=
  match op with
  | .start => (startService s).1
  | .stop => stopService s

/-- Runs a sequence of lifecycle operations. -/
def runServiceOps (s : ServiceState) (ops : List ServiceOp) : ServiceState :=
  ops.foldl applyServiceOp s

/-! ## Generic list helpers -/

/-- Convenience accessor: the i-th QueueInfo of a sample sequence. -/
def queueAt (inputs : List (QueueInfo × Int)) (i : Nat) : QueueInfo :=
  (inputs.getD i (default, 0)).1

/-- Convenience accessor: the i-th sample time of a sample sequence. -/
def timeAt (inputs : List (QueueInfo × Int)) (i : Nat) : Int :=
  (inputs.getD i (default, 0)).2

theorem headI_eq_get {α : Type _} [Inhabited α] (l : List α) (h : 0 < l.length) :
    l.headI = l.get ⟨0, h⟩ := by
  cases l with
  | nil => simp at h
  | cons a t => rfl

theorem getLastI_eq_get {α : Type _} [Inhabited α] (l : List α) (h : 0 < l.length) :
    l.getLastI = l.get ⟨l.length - 1, by omega⟩ := by
  rw [List.getLastI_eq_getLast?, List.getLast?_eq_get?, List.get?_eq_get (by omega)]

theorem headI_mem {α : Type _} [Inhabited α] (l : List α) (h : 0 < l.length) :
    l.headI ∈ l := by
  rw [headI_eq_get l h]; exact l.get_mem _ _

theorem getLastI_mem {α : Type _} [Inhabited α] (l : List α) (h : 0 < l.length) :
    l.getLastI ∈ l := by
  rw [getLastI_eq_get l h]; exact l.get_mem _ _

/-- Head is below the last element in a list whose elements are pairwise
related by a given relation, up to reflexivity at length one. -/
theorem headI_le_getLastI (l : List QueueSnapshot)
    (hp : List.Pairwise (fun a b => a.messagesReady ≤ b.messagesReady) l)
    (h : 0 < l.length) :
    l.headI.messagesReady ≤ l.getLastI.messagesReady := by
  rw [headI_eq_get l h, getLastI_eq_get l h]
  rcases Nat.lt_or_ge 1 l.length with h2 | h2
  · exact (List.pairwise_iff_get.mp hp ⟨0, h⟩ ⟨l.length - 1, by omega⟩ (by
      simp [Fin.lt_def]; omega))
  · have h0 : l.length - 1 = 0 := by omega
    have : (⟨l.length - 1, by omega⟩ : Fin l.length) = ⟨0, h⟩ := by
      simp [Fin.ext_iff, h0]
    rw [this]

/-! ## C8: healthy evaluation resets consecutive_stuck -/

/-- C8: for every queue state, a single evaluation whose outcome is healthy
sets consecutive_stuck to 0, regardless of how large the preceding stuck
streak was. -/
theorem healthy_eval_resets_consecutive_stuck (cfg : DetectionConfig)
    (s : QueueState) (q : QueueInfo) (now : Int)
    (h : (isQueueStuck { s with
            history := updateHistory cfg s.history (snapshotOf q now) } cfg).1
          = false) :
    (analyzeQueueStep cfg s q now).1.consecutiveStuck = 0 := by
  unfold analyzeQueueStep
  simp only [h, Bool.false_eq_true, if_false]

/-- Witness for C8: a state with a streak of 1000000 drops to 0 on a healthy
evaluation (here the history is still shorter than threshold_checks). -/
theorem healthy_eval_resets_consecutive_stuck_witness :
    (analyzeQueueStep ⟨3, 10, 1⟩
      { queueName := "q", history := [], consecutiveStuck := 1000000,
        lastAlertTime := 0, lastSlackAlert := 0, lastKnownState := "",
        stuckSince := 0 }
      ⟨"q", "/", 50, 1, 0, 0, 0⟩ 0).1.consecutiveStuck = 0 :=
  healthy_eval_resets_consecutive_stuck ⟨3, 10, 1⟩
    { queueName := "q", history := [], consecutiveStuck := 1000000,
      lastAlertTime := 0, lastSlackAlert := 0, lastKnownState := "",
      stuckSince := 0 }
    ⟨"q", "/", 50, 1, 0, 0, 0⟩ 0 (by decide)

/-! ## C10: Stop is idempotent and closes the stop channel at most once -/

/-- Count of close operations plus one if still running is bounded by the
count of start operations consumed, starting from any state. -/
theorem runServiceOps_close_bound (ops : List ServiceOp) (s : ServiceState) :
    (runServiceOps s ops).stopCloseCount
      + (if (runServiceOps s ops).running then 1 else 0)
    ≤ s.stopCloseCount + (if s.running then 1 else 0)
      + ops.count ServiceOp.start := by
  induction ops generalizing s with
  | nil => simp [runServiceOps]
  | cons op rest ih =>
    have hrun : runServiceOps s (op :: rest) = runServiceOps (applyServiceOp s op) rest := rfl
    rw [hrun]
    have hih := ih (applyServiceOp s op)
    cases op with
    | start =>
      simp only [List.count_cons, applyServiceOp, startService] at *
      split at hih <;> simp_all <;> split_ifs at * <;> omega
    | stop =>
      simp only [List.count_cons, applyServiceOp, stopService] at *
      split at hih <;> simp_all

/-- C10: Stop on a non-running service is a no-op (hence a second Stop after
a first changes nothing), and over any serialized sequence of lifecycle
operations containing at most one Start (as in the monitor command, which
starts the service once), the stop channel is closed at most once, so a
repeated Stop can never double close it. -/
theorem stop_idempotent_single_close :
    (∀ s : ServiceState, s.running = false → stopService s = s) ∧
    (∀ ops : List ServiceOp, ops.count ServiceOp.start ≤ 1 →
      (runServiceOps newServiceState ops).stopCloseCount ≤ 1) := by
  constructor
  · intro s hs
    unfold stopService
    simp [hs]
  · intro ops hops
    have h : (runServiceOps newServiceState ops).stopCloseCount
        + (if (runServiceOps newServiceState ops).running then 1 else 0)
        ≤ 0 + 0 + ops.count ServiceOp.start :=
      runServiceOps_close_bound ops newServiceState
    split_ifs at h <;> omega

/-- Witness for C10: a start followed by two stops closes the channel once,
and the second stop is a no-op. -/
theorem stop_idempotent_single_close_witness :
    (stopService { running := false, stopCloseCount := 0 }
        = { running := false, stopCloseCount := 0 }) ∧
    (runServiceOps newServiceState
        [ServiceOp.start, ServiceOp.stop, ServiceOp.stop]).stopCloseCount ≤ 1 :=
  ⟨stop_idempotent_single_close.1 { running := false, stopCloseCount := 0 } rfl,
   stop_idempotent_single_close.2
     [ServiceOp.start, ServiceOp.stop, ServiceOp.stop] (by decide)⟩

/-! ## C9: configuration validation and per-queue overrides -/

/-- Queue entry with an invalid threshold override and an invalid interval
override, as it can appear in a configuration file. -/
def overrideQueueC9 : QueueConfig :=
  { name := "orders", checkInterval := some (-1), thresholdChecks := some 0,
    minMessageCount := none, minConsumeRate := none }

/-- Configuration whose global settings are all valid but whose single queue
carries the invalid overrides above. -/
def configC9 : Config :=
  { rabbitmq := { host := "localhost", port := 15672, username := "guest",
                  password := "guest", vhost := "/", useTLS := false },
    monitor := { interval := 60000000000,
                 detection := { thresholdChecks := 3, minMessageCount := 10,
                                minConsumeRate := 1 },
                 queues := [overrideQueueC9] },
    logging := { filePath := "/var/log/rabbitmq-monitor/stuck-queues.log",
                 level := "info", format := "json" } }

/-- Counterexample to C9: validation accepts a configuration whose effective
per-queue threshold_checks is 0 (< 1) and whose effective per-queue check
interval is negative (≤ 0), so loading does not fail on invalid per-queue
overrides. -/
theorem config_load_counterexample :
    validate configC9 = none ∧
    (getDetectionConfig overrideQueueC9 configC9.monitor.detection).thresholdChecks < 1 ∧
    getCheckInterval overrideQueueC9 configC9.monitor.interval ≤ 0 := by
  refine ⟨?_, by decide, by decide⟩
  rfl

/-- C9 amended: validation fails exactly when a global setting is invalid —
empty host, port outside 1..65535, non-positive global interval, global
threshold_checks below 1, or empty log path. Per-queue overrides never
affect the outcome (they do not occur in the condition), so invalid
override values pass validation. -/
theorem validate_checks_only_globals (cfg : Config) :
    validate cfg = none ↔
      (cfg.rabbitmq.host ≠ "" ∧ 0 < cfg.rabbitmq.port ∧ cfg.rabbitmq.port ≤ 65535 ∧
       0 < cfg.monitor.interval ∧ 1 ≤ cfg.monitor.detection.thresholdChecks ∧
       cfg.logging.filePath ≠ "") := by
  unfold validate
  split_ifs with h1 h2 h3 h4 h5 <;>
    simp_all <;> omega

/-! ## C6: scheduler due-time computation -/

/-- C6: for a positive interval and a tick at or after the scheduler start,
a previously sampled queue is due exactly when the interval boundary
start + floor((now - start)/interval)*interval has been reached and the last
sample predates that boundary; a never-sampled queue is always due. -/
theorem scheduler_due_iff (startTime now checkInterval lc : Int)
    (hpos : 0 < checkInterval) (hstart : startTime ≤ now) :
    (shouldCheckQueue startTime now checkInterval (some lc) = true ↔
      (scheduleBoundary startTime now checkInterval ≤ now ∧
       lc < scheduleBoundary startTime now checkInterval)) ∧
    shouldCheckQueue startTime now checkInterval none = true := by
  constructor
  · unfold shouldCheckQueue scheduleBoundary
    dsimp only
    have hdiv : (now - startTime).tdiv checkInterval
        = (now - startTime).fdiv checkInterval := by
      rw [Int.tdiv_eq_ediv, Int.fdiv_eq_ediv] <;> omega
    rw [hdiv]
    simp only [Bool.and_eq_true, decide_eq_true_eq]
    generalize startTime + (now - startTime).fdiv checkInterval * checkInterval = B
    omega
  · rfl

/-- Witness for C6: start 0, now 100, interval 30, last sample at 50: the
boundary is 90, which has passed and postdates the last sample, so the queue
is due. -/
theorem scheduler_due_iff_witness :
    (0 : Int) < 30 ∧ (0 : Int) ≤ 100 ∧
    ((shouldCheckQueue 0 100 30 (some 50) = true ↔
      (scheduleBoundary 0 100 30 ≤ 100 ∧ (50 : Int) < scheduleBoundary 0 100 30)) ∧
     shouldCheckQueue 0 100 30 none = true) :=
  ⟨by decide, by decide, scheduler_due_iff 0 100 30 50 (by decide) (by decide)⟩

/-! ## C3: notification cooldowns share one last-sent timestamp -/

/-- Slack configuration with five-minute cooldowns for both alert types. -/
def slackConfigC3 : SlackConfig :=
  { enabled := true, alertCooldown := 300000000000, sendRecovery := true,
    recoveryCooldown := 300000000000 }

/-- Counterexample to C3: a stuck notification sent at time 1000000000000
sets the shared LastSlackAlert timestamp, and a recovery transition one
second later is suppressed by the recovery cooldown measured against that
same timestamp — so a recovery notification IS suppressed because a stuck
alert was sent recently. -/
theorem notification_shared_timestamp_counterexample :
    (handleStateTransition slackConfigC3 "stuck" 0 1000000000000).1 = true ∧
    (handleStateTransition slackConfigC3 "stuck" 0 1000000000000).2 = 1000000000000 ∧
    (handleStateTransition slackConfigC3 "healthy" 1000000000000 1001000000000).1
      = false := by
  refine ⟨rfl, rfl, ?_⟩
  rfl

/-- C3 amended: stuck and recovery notifications are gated by per-type
cooldown durations (alert_cooldown for Healthy→Stuck, recovery_cooldown for
Stuck→Healthy) but by one shared per-queue last-sent timestamp: a
notification of either type is suppressed exactly when the shared timestamp
is set and the applicable cooldown has not elapsed since it — regardless of
which notification type set the timestamp — and a sent notification of
either type overwrites the shared timestamp with now. -/
theorem notification_cooldowns_share_timestamp (cfg : SlackConfig)
    (lastSlack now : Int) :
    ((handleStateTransition cfg "stuck" lastSlack now).1 = true ↔
      ¬(lastSlack ≠ 0 ∧ now - lastSlack < cfg.alertCooldown)) ∧
    (cfg.sendRecovery = true →
      ((handleStateTransition cfg "healthy" lastSlack now).1 = true ↔
        ¬(lastSlack ≠ 0 ∧ now - lastSlack < cfg.recoveryCooldown))) ∧
    (cfg.sendRecovery = false →
      (handleStateTransition cfg "healthy" lastSlack now).1 = false) ∧
    (∀ toState : String,
      (handleStateTransition cfg toState lastSlack now).1 = true →
        (handleStateTransition cfg toState lastSlack now).2 = now) ∧
    (∀ toState : String,
      (handleStateTransition cfg toState lastSlack now).1 = false →
        (handleStateTransition cfg toState lastSlack now).2 = lastSlack) := by
  have hstuck : handleStateTransition cfg "stuck" lastSlack now
      = if lastSlack ≠ 0 ∧ now - lastSlack < cfg.alertCooldown
        then (false, lastSlack) else (true, now) := rfl
  have hhealthy : handleStateTransition cfg "healthy" lastSlack now
      = if cfg.sendRecovery
        then (if lastSlack ≠ 0 ∧ now - lastSlack < cfg.recoveryCooldown
              then (false, lastSlack) else (true, now))
        else (false, lastSlack) := by
    unfold handleStateTransition
    by_cases hr : cfg.sendRecovery <;> simp [hr]
  have hcases : ∀ t : String,
      handleStateTransition cfg t lastSlack now = (false, lastSlack) ∨
      handleStateTransition cfg t lastSlack now = (true, now) := by
    intro t
    unfold handleStateTransition
    dsimp only
    split
    · exact Or.inl rfl
    · split_ifs <;> simp
  refine ⟨?_, ?_, ?_, ?_, ?_⟩
  · rw [hstuck]
    split_ifs with h <;> simp_all
  · intro hrec
    rw [hhealthy, if_pos hrec]
    split_ifs with h <;> simp_all
  · intro hrec
    rw [hhealthy, hrec]
    simp
  · intro toState hsent
    rcases hcases toState with hc | hc <;> rw [hc] at hsent ⊢ <;> simp_all
  · intro toState hsent
    rcases hcases toState with hc | hc <;> rw [hc] at hsent ⊢ <;> simp_all

/-- Witness for C3 amended: with recovery enabled and nothing sent yet, a
recovery notification goes out. -/
theorem notification_cooldowns_share_timestamp_witness :
    (handleStateTransition slackConfigC3 "healthy" 0 5).1 = true ↔
      ¬((0 : Int) ≠ 0 ∧ (5 : Int) - 0 < slackConfigC3.recoveryCooldown) :=
  (notification_cooldowns_share_timestamp slackConfigC3 0 5).2.1 rfl

/-! ## C1: the stagnation test against its specification -/

/-- Detection config with threshold_checks = 1 for the C1 counterexample. -/
def configC1 : DetectionConfig :=
  { thresholdChecks := 1, minMessageCount := 0, minConsumeRate := 1 }

/-- Queue state holding a single sample with 50 ready messages. -/
def stateC1 : QueueState :=
  { queueName := "q", history := [⟨0, 50, 0, 0, 0⟩], consecutiveStuck := 0,
    lastAlertTime := 0, lastSlackAlert := 0, lastKnownState := "",
    stuckSince := 0 }

/-- Counterexample to C1: on a one-sample history with 50 ready messages and
threshold_checks = 1, the claimed case analysis (window [50], last == first
and not both at most 0, hence stagnant) says stagnant, but the implemented
test returns not stagnant because any history shorter than two samples is
unconditionally treated as not stagnant. -/
theorem stagnation_singleton_counterexample :
    stagnantSpec (stagnationWindow stateC1.history configC1) = true ∧
    isMessageCountStagnant stateC1 configC1 = false :=
  ⟨rfl, rfl⟩

/-- C1 amended: for histories with at least two samples the stagnation test
agrees exactly with the specified case analysis over the window of the last
min(threshold_checks, history length) samples; a history with fewer than two
samples is never stagnant. -/
theorem stagnation_test_matches_spec (cfg : DetectionConfig) (s : QueueState)
    (htc : 1 ≤ cfg.thresholdChecks) :
    (2 ≤ s.history.length →
      isMessageCountStagnant s cfg
        = stagnantSpec (stagnationWindow s.history cfg)) ∧
    (s.history.length < 2 → isMessageCountStagnant s cfg = false) := by
  constructor
  · intro hlen
    have hw : stagnationWindow s.history cfg
        = (if (s.history.length : Int) > cfg.thresholdChecks then
            s.history.drop (s.history.length - cfg.thresholdChecks.toNat)
           else s.history) := by
      unfold stagnationWindow
      split_ifs with h
      · have : min cfg.thresholdChecks.toNat s.history.length
            = cfg.thresholdChecks.toNat := by omega
        rw [this]
      · have : min cfg.thresholdChecks.toNat s.history.length
            = s.history.length := by omega
        rw [this]
        simp
    unfold isMessageCountStagnant stagnantSpec
    rw [hw]
    rw [if_neg (by omega)]
  · intro hlen
    unfold isMessageCountStagnant
    rw [if_pos hlen]

/-- Witness for C1 amended: a flat two-sample history at 50 messages with
threshold_checks = 2 is stagnant under both the code and the spec wording. -/
theorem stagnation_test_matches_spec_witness :
    (1 : Int) ≤ 2 ∧
    (isMessageCountStagnant
        { queueName := "q", history := [⟨0, 50, 0, 0, 0⟩, ⟨1, 50, 0, 0, 0⟩],
          consecutiveStuck := 0, lastAlertTime := 0, lastSlackAlert := 0,
          lastKnownState := "", stuckSince := 0 }
        { thresholdChecks := 2, minMessageCount := 10, minConsumeRate := 1 }
      = stagnantSpec (stagnationWindow
          [⟨0, 50, 0, 0, 0⟩, ⟨1, 50, 0, 0, 0⟩]
          { thresholdChecks := 2, minMessageCount := 10, minConsumeRate := 1 })) :=
  ⟨by decide,
   (stagnation_test_matches_spec
      { thresholdChecks := 2, minMessageCount := 10, minConsumeRate := 1 }
      { queueName := "q", history := [⟨0, 50, 0, 0, 0⟩, ⟨1, 50, 0, 0, 0⟩],
        consecutiveStuck := 0, lastAlertTime := 0, lastSlackAlert := 0,
        lastKnownState := "", stuckSince := 0 }
      (by decide)).1 (by decide)⟩

/-! ## Projections of snapshot histories -/

/-- Message counts of a history, in order. -/
def msgProj (h : List QueueSnapshot) : List Int :=
  h.map (fun x => x.messagesReady)

/-- Rate-free content of a history: timestamp, message count and consumer
count of every snapshot, in order. -/
def coreProj (h : List QueueSnapshot) : List (Int × Int × Int) :=
  h.map (fun x => (x.timestamp, x.messagesReady, x.consumers))

theorem headI_msg_map (l : List QueueSnapshot) :
    (l.map (fun x => x.messagesReady)).headI = l.headI.messagesReady := by
  cases l <;> rfl

theorem getLastI_msg_map (l : List QueueSnapshot) :
    (l.map (fun x => x.messagesReady)).getLastI = l.getLastI.messagesReady := by
  rw [List.getLastI_eq_getLast?, List.getLastI_eq_getLast?, List.getLast?_map]
  cases l.getLast? <;> rfl

/-- Mapping a projection through the append-and-trim history update depends
only on the projections of the old history and of the new snapshot. -/
theorem updateHistory_map_congr {β : Type _} (f : QueueSnapshot → β)
    (cfg : DetectionConfig) (h1 h2 : List QueueSnapshot) (x1 x2 : QueueSnapshot)
    (hh : h1.map f = h2.map f) (hx : f x1 = f x2) :
    (updateHistory cfg h1 x1).map f = (updateHistory cfg h2 x2).map f := by
  have hlen : h1.length = h2.length := by
    rw [← List.length_map h1 f, hh, List.length_map]
  have hlen2 : (h1 ++ [x1]).length = (h2 ++ [x2]).length := by
    simp [hlen]
  unfold updateHistory
  dsimp only
  rw [hlen2]
  split_ifs with hA
  · rw [List.map_drop, List.map_drop, List.map_append, List.map_append, hh]
    simp [hx]
  · rw [List.map_append, List.map_append, hh]
    simp [hx]

/-- The stagnation test reads only the message counts of the history. -/
theorem isMessageCountStagnant_congr (s1 s2 : QueueState) (cfg : DetectionConfig)
    (hh : msgProj s1.history = msgProj s2.history) :
    isMessageCountStagnant s1 cfg = isMessageCountStagnant s2 cfg := by
  have hlen : s1.history.length = s2.history.length := by
    have := congrArg List.length hh
    simpa [msgProj] using this
  by_cases hl : s1.history.length < 2
  · unfold isMessageCountStagnant
    rw [if_pos hl, if_pos (show s2.history.length < 2 by omega)]
  · have hl2 : ¬ s2.history.length < 2 := by omega
    have hrec : msgProj (if (s1.history.length : Int) > cfg.thresholdChecks then
          s1.history.drop (s1.history.length - cfg.thresholdChecks.toNat)
        else s1.history)
        = msgProj (if (s2.history.length : Int) > cfg.thresholdChecks then
          s2.history.drop (s2.history.length - cfg.thresholdChecks.toNat)
        else s2.history) := by
      rw [hlen]
      split_ifs with hgt
      · unfold msgProj at hh ⊢
        rw [List.map_drop, List.map_drop, hh]
      · exact hh
    have hfirst : (if (s1.history.length : Int) > cfg.thresholdChecks then
          s1.history.drop (s1.history.length - cfg.thresholdChecks.toNat)
        else s1.history).headI.messagesReady
        = (if (s2.history.length : Int) > cfg.thresholdChecks then
          s2.history.drop (s2.history.length - cfg.thresholdChecks.toNat)
        else s2.history).headI.messagesReady := by
      rw [← headI_msg_map, ← headI_msg_map]
      unfold msgProj at hrec
      rw [hrec]
    have hlast : (if (s1.history.length : Int) > cfg.thresholdChecks then
          s1.history.drop (s1.history.length - cfg.thresholdChecks.toNat)
        else s1.history).getLastI.messagesReady
        = (if (s2.history.length : Int) > cfg.thresholdChecks then
          s2.history.drop (s2.history.length - cfg.thresholdChecks.toNat)
        else s2.history).getLastI.messagesReady := by
      rw [← getLastI_msg_map, ← getLastI_msg_map]
      unfold msgProj at hrec
      rw [hrec]
    have hrlen : (if (s1.history.length : Int) > cfg.thresholdChecks then
          s1.history.drop (s1.history.length - cfg.thresholdChecks.toNat)
        else s1.history).length
        = (if (s2.history.length : Int) > cfg.thresholdChecks then
          s2.history.drop (s2.history.length - cfg.thresholdChecks.toNat)
        else s2.history).length := by
      have := congrArg List.length hrec
      simpa [msgProj] using this
    unfold isMessageCountStagnant
    rw [if_neg hl, if_neg hl2]
    dsimp only
    rw [hfirst, hlast, hrlen]

/-- The stuck flag of isQueueStuck holds exactly when there is enough history,
the latest sample has more than min_message_count ready messages, and the
history is stagnant; the rate fields influence only the reason string. -/
theorem isQueueStuck_fst_iff (st : QueueState) (cfg : DetectionConfig) :
    (isQueueStuck st cfg).1 = true ↔
      (cfg.thresholdChecks ≤ (st.history.length : Int) ∧
       cfg.minMessageCount < st.history.getLastI.messagesReady ∧
       isMessageCountStagnant st cfg = true) := by
  unfold isQueueStuck
  dsimp only
  split_ifs with h1 h2 <;> simp_all <;> split_ifs <;> simp_all <;> omega

/-- With a negative min_consume_rate the whole classification (flag and
reason) depends only on the message counts of the history. -/
theorem isQueueStuck_rate_blind (s1 s2 : QueueState) (cfg : DetectionConfig)
    (hneg : cfg.minConsumeRate < 0)
    (hh : msgProj s1.history = msgProj s2.history) :
    isQueueStuck s1 cfg = isQueueStuck s2 cfg := by
  have hlen : s1.history.length = s2.history.length := by
    have := congrArg List.length hh
    simpa [msgProj] using this
  have hlast : s1.history.getLastI.messagesReady
      = s2.history.getLastI.messagesReady := by
    rw [← getLastI_msg_map, ← getLastI_msg_map]
    unfold msgProj at hh
    rw [hh]
  have hstag := isMessageCountStagnant_congr s1 s2 cfg hh
  have hact : decide (cfg.minConsumeRate < 0) = true := by
    simpa using hneg
  unfold isQueueStuck
  dsimp only
  rw [hlen, hlast, hstag, hact]
  simp only [Bool.true_or, Bool.not_true, Bool.false_eq_true, if_false]

/-! ## C5: rate fields are irrelevant when rate checking is disabled -/

/-- C5: with min_consume_rate negative, two snapshots that differ only in
consume_rate and ack_rate produce the same classification (stuck flag and
reason), the same counter / state-machine / timestamp updates, the same
rate-free history content, and emit an Alert and a Transition in exactly the
same cases with the same transition content apart from the echoed rates. -/
theorem rate_fields_never_affect_outcome (cfg : DetectionConfig)
    (s : QueueState) (q : QueueInfo) (now : Int) (cr ar : Rat)
    (hneg : cfg.minConsumeRate < 0) :
    (isQueueStuck
        { s with history := updateHistory cfg s.history (snapshotOf q now) } cfg
      = isQueueStuck
        { s with history := updateHistory cfg s.history (snapshotOf { q with consumeRate := cr, ackRate := ar } now) } cfg) ∧
    ((analyzeQueueStep cfg s q now).1.consecutiveStuck
      = (analyzeQueueStep cfg s
          { q with consumeRate := cr, ackRate := ar } now).1.consecutiveStuck) ∧
    ((analyzeQueueStep cfg s q now).1.lastKnownState
      = (analyzeQueueStep cfg s
          { q with consumeRate := cr, ackRate := ar } now).1.lastKnownState) ∧
    ((analyzeQueueStep cfg s q now).1.stuckSince
      = (analyzeQueueStep cfg s
          { q with consumeRate := cr, ackRate := ar } now).1.stuckSince) ∧
    ((analyzeQueueStep cfg s q now).1.lastAlertTime
      = (analyzeQueueStep cfg s
          { q with consumeRate := cr, ackRate := ar } now).1.lastAlertTime) ∧
    ((analyzeQueueStep cfg s q now).1.lastSlackAlert
      = (analyzeQueueStep cfg s
          { q with consumeRate := cr, ackRate := ar } now).1.lastSlackAlert) ∧
    (coreProj (analyzeQueueStep cfg s q now).1.history
      = coreProj (analyzeQueueStep cfg s
          { q with consumeRate := cr, ackRate := ar } now).1.history) ∧
    ((analyzeQueueStep cfg s q now).2.1.isSome
      = (analyzeQueueStep cfg s
          { q with consumeRate := cr, ackRate := ar } now).2.1.isSome) ∧
    ((analyzeQueueStep cfg s q now).2.1.map (fun a => a.reason)
      = (analyzeQueueStep cfg s
          { q with consumeRate := cr, ackRate := ar } now).2.1.map
            (fun a => a.reason)) ∧
    ((analyzeQueueStep cfg s q now).2.2.map
        (fun t => (t.fromState, t.toState, t.timestamp, t.stuckDuration, t.reason))
      = (analyzeQueueStep cfg s
          { q with consumeRate := cr, ackRate := ar } now).2.2.map
            (fun t => (t.fromState, t.toState, t.timestamp, t.stuckDuration,
              t.reason))) := by
  have hmsg : msgProj (updateHistory cfg s.history (snapshotOf q now))
      = msgProj (updateHistory cfg s.history
          (snapshotOf { q with consumeRate := cr, ackRate := ar } now)) :=
    updateHistory_map_congr _ cfg _ _ _ _ rfl rfl
  have hcore : coreProj (updateHistory cfg s.history (snapshotOf q now))
      = coreProj (updateHistory cfg s.history
          (snapshotOf { q with consumeRate := cr, ackRate := ar } now)) :=
    updateHistory_map_congr _ cfg _ _ _ _ rfl rfl
  have hstuck : isQueueStuck
      { s with history := updateHistory cfg s.history (snapshotOf q now) } cfg
      = isQueueStuck
      { s with history := updateHistory cfg s.history (snapshotOf { q with consumeRate := cr, ackRate := ar } now) } cfg :=
    isQueueStuck_rate_blind _ _ cfg hneg hmsg
  refine ⟨hstuck, ?_⟩
  unfold analyzeQueueStep
  dsimp only
  rw [← hstuck]
  rcases hres : isQueueStuck
      { s with history := updateHistory cfg s.history (snapshotOf q now) } cfg
    with ⟨b, r⟩
  cases b <;> simp_all <;> split_ifs <;> simp_all

/-- Witness for C5: two evaluations differing only in the rates (2,3 versus
9,9) leave the same consecutive_stuck counter. -/
theorem rate_fields_never_affect_outcome_witness :
    (analyzeQueueStep ⟨1, 0, -1⟩ (initialQueueState "q")
        ⟨"q", "/", 5, 1, 2, 3, 4⟩ 0).1.consecutiveStuck
      = (analyzeQueueStep ⟨1, 0, -1⟩ (initialQueueState "q")
        ⟨"q", "/", 5, 1, 9, 9, 4⟩ 0).1.consecutiveStuck :=
  (rate_fields_never_affect_outcome ⟨1, 0, -1⟩ (initialQueueState "q")
    ⟨"q", "/", 5, 1, 2, 3, 4⟩ 0 9 9 (by decide)).2.1

/-! ## Run machinery shared by the temporal claims -/

theorem runState_append (cfg : DetectionConfig) (s : QueueState)
    (l1 l2 : List (QueueInfo × Int)) :
    runState cfg s (l1 ++ l2) = runState cfg (runState cfg s l1) l2 := by
  unfold runState
  exact List.foldl_append _ _ _ _

/-- Unfolding one evaluation at the end of a prefix run. -/
theorem stateAfter_take_succ (cfg : DetectionConfig) (name : String)
    (inputs : List (QueueInfo × Int)) (k : Nat) (hk : k < inputs.length) :
    stateAfter cfg name (inputs.take (k + 1)) = (stepAt cfg name inputs k).1 := by
  unfold stateAfter stepAt
  rw [List.take_succ]
  have hget : inputs[k]? = some (inputs.getD k (default, 0)) := by
    rw [List.getElem?_eq_getElem hk]
    rw [List.getD_eq_getElem?_getD, List.getElem?_eq_getElem hk]
    rfl
  rw [hget]
  rw [show (some (inputs.getD k (default, 0))).toList
      = [inputs.getD k (default, 0)] from rfl]
  rw [runState_append]
  rfl

theorem updateHistory_length_of_le (cfg : DetectionConfig)
    (h : List QueueSnapshot) (x : QueueSnapshot)
    (hle : (h.length : Int) + 1 ≤ cfg.thresholdChecks + 1) :
    (updateHistory cfg h x).length = h.length + 1 := by
  unfold updateHistory
  dsimp only
  rw [if_neg (by simp only [List.length_append, List.length_cons,
    List.length_nil]; push_cast; omega)]
  simp

theorem isQueueStuck_short (st : QueueState) (cfg : DetectionConfig)
    (h : (st.history.length : Int) < cfg.thresholdChecks) :
    isQueueStuck st cfg = (false, "") := by
  unfold isQueueStuck
  rw [if_pos h]

/-- One full evaluation in the healthy case, for a queue whose recorded state
was not stuck: only the history changes and the counter is (re)set to 0. -/
theorem analyzeQueueStep_healthy_eq (cfg : DetectionConfig) (s : QueueState)
    (q : QueueInfo) (now : Int)
    (h : (isQueueStuck { s with
            history := updateHistory cfg s.history (snapshotOf q now) } cfg).1
          = false)
    (hlk : s.lastKnownState ≠ "stuck") :
    analyzeQueueStep cfg s q now
      = ({ s with history := updateHistory cfg s.history (snapshotOf q now), consecutiveStuck := 0 }, none, none) := by
  unfold analyzeQueueStep
  dsimp only
  simp only [h, Bool.false_eq_true, if_false]
  rw [if_neg (by simpa using hlk)]

/-- One full evaluation while the updated history is still short: only the
history changes and the counter is (re)set to 0. -/
theorem analyzeQueueStep_short_eq (cfg : DetectionConfig) (s : QueueState)
    (q : QueueInfo) (now : Int)
    (hshort : ((updateHistory cfg s.history (snapshotOf q now)).length : Int)
      < cfg.thresholdChecks)
    (hlk : s.lastKnownState ≠ "stuck") :
    analyzeQueueStep cfg s q now
      = ({ s with history := updateHistory cfg s.history (snapshotOf q now), consecutiveStuck := 0 }, none, none) := by
  apply analyzeQueueStep_healthy_eq cfg s q now ?_ hlk
  rw [isQueueStuck_short { s with history := updateHistory cfg s.history (snapshotOf q now) } cfg hshort]

/-- Before threshold_checks evaluations have accumulated, every evaluation is
healthy and the state machine fields are untouched. -/
theorem stateAfter_short_run (cfg : DetectionConfig) (name : String)
    (inputs : List (QueueInfo × Int)) (htc : 1 ≤ cfg.thresholdChecks) (k : Nat)
    (hk : k ≤ inputs.length) (hlt : (k : Int) < cfg.thresholdChecks) :
    (stateAfter cfg name (inputs.take k)).consecutiveStuck = 0 ∧
    (stateAfter cfg name (inputs.take k)).lastKnownState = "" ∧
    (stateAfter cfg name (inputs.take k)).history.length = k := by
  induction k with
  | zero => exact ⟨rfl, rfl, rfl⟩
  | succ k ih =>
    have hk' : k < inputs.length := by omega
    obtain ⟨hcs, hlk, hl⟩ := ih (by omega) (by push_cast at hlt ⊢; omega)
    rw [stateAfter_take_succ cfg name inputs k hk']
    unfold stepAt
    dsimp only
    have hulen : (updateHistory cfg
        (stateAfter cfg name (inputs.take k)).history
        (snapshotOf (inputs.getD k (default, 0)).1
          (inputs.getD k (default, 0)).2)).length = k + 1 := by
      have hli := updateHistory_length_of_le cfg
        (stateAfter cfg name (inputs.take k)).history
        (snapshotOf (inputs.getD k (default, 0)).1 (inputs.getD k (default, 0)).2)
        (by rw [hl]; push_cast at hlt ⊢; omega)
      rw [hli, hl]
    rw [analyzeQueueStep_short_eq cfg _ _ _
      (by rw [hulen]; push_cast at hlt ⊢; omega)
      (by rw [hlk]; decide)]
    exact ⟨rfl, hlk, hulen⟩

/-- C7: while the history (after appending the new snapshot) is still shorter
than threshold_checks, the evaluation classifies the queue healthy, emits no
Alert and no Transition, and leaves consecutive_stuck and the recorded health
state exactly as they were before the call. -/
theorem insufficient_history_keeps_state (cfg : DetectionConfig) (name : String)
    (inputs : List (QueueInfo × Int)) (k : Nat)
    (htc : 1 ≤ cfg.thresholdChecks) (hk : k < inputs.length)
    (hshort : (k : Int) + 1 < cfg.thresholdChecks) :
    ((stepAt cfg name inputs k).1.history.length : Int) = (k : Int) + 1 ∧
    (isQueueStuck (stepAt cfg name inputs k).1 cfg).1 = false ∧
    (stepAt cfg name inputs k).2.1 = none ∧
    (stepAt cfg name inputs k).2.2 = none ∧
    (stepAt cfg name inputs k).1.consecutiveStuck
      = (stateAfter cfg name (inputs.take k)).consecutiveStuck ∧
    (stepAt cfg name inputs k).1.lastKnownState
      = (stateAfter cfg name (inputs.take k)).lastKnownState := by
  obtain ⟨hcs, hlk, hl⟩ := stateAfter_short_run cfg name inputs htc k
    (le_of_lt hk) (by push_cast at hshort ⊢; omega)
  unfold stepAt
  dsimp only
  have hulen : (updateHistory cfg
      (stateAfter cfg name (inputs.take k)).history
      (snapshotOf (inputs.getD k (default, 0)).1
        (inputs.getD k (default, 0)).2)).length = k + 1 := by
    have hli := updateHistory_length_of_le cfg
      (stateAfter cfg name (inputs.take k)).history
      (snapshotOf (inputs.getD k (default, 0)).1 (inputs.getD k (default, 0)).2)
      (by rw [hl]; push_cast at hshort ⊢; omega)
    rw [hli, hl]
  rw [analyzeQueueStep_short_eq cfg _ _ _
    (by rw [hulen]; push_cast at hshort ⊢; omega)
    (by rw [hlk]; decide)]
  refine ⟨by rw [hulen]; omega, ?_, rfl, rfl, by rw [hcs], rfl⟩
  rw [isQueueStuck_short _ _ (by rw [hulen]; push_cast at hshort ⊢; omega)]

/-- Witness for C7: with threshold_checks = 3, the first evaluation (history
length 1 afterwards) is healthy and changes nothing but the history. -/
theorem insufficient_history_keeps_state_witness :
    (1 : Int) ≤ 3 ∧ (0 : Nat) < 2 ∧ ((0 : Nat) : Int) + 1 < 3 ∧
    (((stepAt ⟨3, 10, 1⟩ "q"
        [(⟨"q", "/", 50, 1, 0, 0, 0⟩, 0), (⟨"q", "/", 50, 1, 0, 0, 0⟩, 10)]
        0).1.history.length : Int) = ((0 : Nat) : Int) + 1 ∧
     (isQueueStuck (stepAt ⟨3, 10, 1⟩ "q"
        [(⟨"q", "/", 50, 1, 0, 0, 0⟩, 0), (⟨"q", "/", 50, 1, 0, 0, 0⟩, 10)]
        0).1 ⟨3, 10, 1⟩).1 = false ∧
     (stepAt ⟨3, 10, 1⟩ "q"
        [(⟨"q", "/", 50, 1, 0, 0, 0⟩, 0), (⟨"q", "/", 50, 1, 0, 0, 0⟩, 10)]
        0).2.1 = none ∧
     (stepAt ⟨3, 10, 1⟩ "q"
        [(⟨"q", "/", 50, 1, 0, 0, 0⟩, 0), (⟨"q", "/", 50, 1, 0, 0, 0⟩, 10)]
        0).2.2 = none ∧
     (stepAt ⟨3, 10, 1⟩ "q"
        [(⟨"q", "/", 50, 1, 0, 0, 0⟩, 0), (⟨"q", "/", 50, 1, 0, 0, 0⟩, 10)]
        0).1.consecutiveStuck
       = (stateAfter ⟨3, 10, 1⟩ "q"
          ([(⟨"q", "/", 50, 1, 0, 0, 0⟩, 0),
            (⟨"q", "/", 50, 1, 0, 0, 0⟩, 10)].take 0)).consecutiveStuck ∧
     (stepAt ⟨3, 10, 1⟩ "q"
        [(⟨"q", "/", 50, 1, 0, 0, 0⟩, 0), (⟨"q", "/", 50, 1, 0, 0, 0⟩, 10)]
        0).1.lastKnownState
       = (stateAfter ⟨3, 10, 1⟩ "q"
          ([(⟨"q", "/", 50, 1, 0, 0, 0⟩, 0),
            (⟨"q", "/", 50, 1, 0, 0, 0⟩, 10)].take 0)).lastKnownState) :=
  ⟨by decide, by decide, by decide,
   insufficient_history_keeps_state ⟨3, 10, 1⟩ "q"
     [(⟨"q", "/", 50, 1, 0, 0, 0⟩, 0), (⟨"q", "/", 50, 1, 0, 0, 0⟩, 10)] 0
     (by decide) (by decide) (by decide)⟩

/-! ## C4: alert throttling to one per five minutes -/

/-- An emitted Alert always means the five-minute throttle had elapsed
relative to the pre-call last_alert_time. -/
theorem alert_requires_cooldown (cfg : DetectionConfig) (s : QueueState)
    (q : QueueInfo) (now : Int) :
    (analyzeQueueStep cfg s q now).2.1.isSome = true →
      fiveMinutes ≤ now - s.lastAlertTime := by
  unfold analyzeQueueStep
  dsimp only
  split_ifs <;> simp_all <;> omega

/-- Each evaluation either keeps last_alert_time or sets it to now. -/
theorem step_lastAlert_cases (cfg : DetectionConfig) (s : QueueState)
    (q : QueueInfo) (now : Int) :
    (analyzeQueueStep cfg s q now).1.lastAlertTime = s.lastAlertTime ∨
    (analyzeQueueStep cfg s q now).1.lastAlertTime = now := by
  unfold analyzeQueueStep
  dsimp only
  split_ifs <;> simp_all

/-- Emitting an Alert records now as last_alert_time. -/
theorem alert_sets_lastAlert (cfg : DetectionConfig) (s : QueueState)
    (q : QueueInfo) (now : Int) :
    (analyzeQueueStep cfg s q now).2.1.isSome = true →
      (analyzeQueueStep cfg s q now).1.lastAlertTime = now := by
  unfold analyzeQueueStep
  dsimp only
  split_ifs <;> simp_all

/-- Suppressing the Alert leaves last_alert_time untouched. -/
theorem no_alert_keeps_lastAlert (cfg : DetectionConfig) (s : QueueState)
    (q : QueueInfo) (now : Int) :
    (analyzeQueueStep cfg s q now).2.1.isSome = false →
      (analyzeQueueStep cfg s q now).1.lastAlertTime = s.lastAlertTime := by
  unfold analyzeQueueStep
  dsimp only
  split_ifs <;> simp_all

/-- After an alert fires at evaluation j, last_alert_time never drops below
the j-th sample time while later evaluations run (times non-decreasing). -/
theorem lastAlert_lower_bound (cfg : DetectionConfig) (name : String)
    (inputs : List (QueueInfo × Int)) (j : Nat) (hj : j < inputs.length)
    (hja : (alertAt cfg name inputs j).isSome = true)
    (hmono : ∀ i1 i2, i1 ≤ i2 → i2 < inputs.length →
      timeAt inputs i1 ≤ timeAt inputs i2) :
    ∀ m, j < m → m ≤ inputs.length →
      timeAt inputs j ≤ (stateAfter cfg name (inputs.take m)).lastAlertTime := by
  intro m
  induction m with
  | zero => omega
  | succ m ih =>
    intro hjm hmn
    have hm : m < inputs.length := by omega
    rw [stateAfter_take_succ cfg name inputs m hm]
    rcases Nat.lt_or_ge j m with hcase | hcase
    · have hbound := ih hcase (by omega)
      rcases step_lastAlert_cases cfg (stateAfter cfg name (inputs.take m))
          (inputs.getD m (default, 0)).1 (inputs.getD m (default, 0)).2 with hc | hc
      · unfold stepAt
        rw [hc]
        exact hbound
      · unfold stepAt
        rw [hc]
        exact hmono j m (by omega) hm
    · have hjem : j = m := by omega
      subst hjem
      exact le_of_eq (alert_sets_lastAlert cfg _ _ _ hja).symm

/-- C4: on a qualifying stuck evaluation (counter crossing threshold_checks)
at any realistic wall-clock time, an Alert is emitted iff last_alert_time is
unset (the Go zero time, modelled as 0) or at least five minutes old, and
emitting records now while suppression keeps the old timestamp; consequently,
over any run with non-decreasing sample times, any two alert-emitting
evaluations for the queue lie at least five minutes apart — at most one Alert
per five-minute window. -/
theorem alert_per_five_minutes (cfg : DetectionConfig) (name : String) :
    (∀ (s : QueueState) (q : QueueInfo) (now : Int),
      (isQueueStuck { s with history := updateHistory cfg s.history (snapshotOf q now) } cfg).1 = true →
      cfg.thresholdChecks ≤ s.consecutiveStuck + 1 →
      fiveMinutes ≤ now →
      (((analyzeQueueStep cfg s q now).2.1.isSome = true ↔
        (s.lastAlertTime = 0 ∨ fiveMinutes ≤ now - s.lastAlertTime)) ∧
       ((analyzeQueueStep cfg s q now).2.1.isSome = true →
         (analyzeQueueStep cfg s q now).1.lastAlertTime = now) ∧
       ((analyzeQueueStep cfg s q now).2.1.isSome = false →
         (analyzeQueueStep cfg s q now).1.lastAlertTime = s.lastAlertTime))) ∧
    (∀ (inputs : List (QueueInfo × Int)) (j k : Nat),
      j < k → k < inputs.length →
      (∀ i1 i2, i1 ≤ i2 → i2 < inputs.length →
        timeAt inputs i1 ≤ timeAt inputs i2) →
      (alertAt cfg name inputs j).isSome = true →
      (alertAt cfg name inputs k).isSome = true →
      fiveMinutes ≤ timeAt inputs k - timeAt inputs j) := by
  constructor
  · intro s q now hstuck hqual hnow
    refine ⟨?_, alert_sets_lastAlert cfg s q now, no_alert_keeps_lastAlert cfg s q now⟩
    unfold analyzeQueueStep
    dsimp only
    simp only [hstuck]
    split_ifs <;> simp_all <;> omega
  · intro inputs j k hjk hk hmono hja hka
    have hbound := lastAlert_lower_bound cfg name inputs j (by omega) hja hmono
      k hjk (le_of_lt hk)
    have hcool := alert_requires_cooldown cfg
      (stateAfter cfg name (inputs.take k))
      (inputs.getD k (default, 0)).1 (inputs.getD k (default, 0)).2 hka
    have htk : timeAt inputs k = (inputs.getD k (default, 0)).2 := rfl
    rw [htk]
    omega

/-- Witness for C4: a qualifying stuck evaluation with an unset
last_alert_time at wall-clock time fiveMinutes emits the alert iff the
throttle allows, which it does. -/
theorem alert_per_five_minutes_witness :
    ((analyzeQueueStep ⟨1, 0, -1⟩
        { queueName := "q", history := [⟨0, 50, 0, 0, 1⟩], consecutiveStuck := 0,
          lastAlertTime := 0, lastSlackAlert := 0, lastKnownState := "",
          stuckSince := 0 }
        ⟨"q", "/", 50, 1, 0, 0, 0⟩ fiveMinutes).2.1.isSome = true ↔
      ((0 : Int) = 0 ∨ fiveMinutes ≤ fiveMinutes - 0)) ∧
    ((analyzeQueueStep ⟨1, 0, -1⟩
        { queueName := "q", history := [⟨0, 50, 0, 0, 1⟩], consecutiveStuck := 0,
          lastAlertTime := 0, lastSlackAlert := 0, lastKnownState := "",
          stuckSince := 0 }
        ⟨"q", "/", 50, 1, 0, 0, 0⟩ fiveMinutes).2.1.isSome = true →
      (analyzeQueueStep ⟨1, 0, -1⟩
        { queueName := "q", history := [⟨0, 50, 0, 0, 1⟩], consecutiveStuck := 0,
          lastAlertTime := 0, lastSlackAlert := 0, lastKnownState := "",
          stuckSince := 0 }
        ⟨"q", "/", 50, 1, 0, 0, 0⟩ fiveMinutes).1.lastAlertTime = fiveMinutes) ∧
    ((analyzeQueueStep ⟨1, 0, -1⟩
        { queueName := "q", history := [⟨0, 50, 0, 0, 1⟩], consecutiveStuck := 0,
          lastAlertTime := 0, lastSlackAlert := 0, lastKnownState := "",
          stuckSince := 0 }
        ⟨"q", "/", 50, 1, 0, 0, 0⟩ fiveMinutes).2.1.isSome = false →
      (analyzeQueueStep ⟨1, 0, -1⟩
        { queueName := "q", history := [⟨0, 50, 0, 0, 1⟩], consecutiveStuck := 0,
          lastAlertTime := 0, lastSlackAlert := 0, lastKnownState := "",
          stuckSince := 0 }
        ⟨"q", "/", 50, 1, 0, 0, 0⟩ fiveMinutes).1.lastAlertTime = 0) :=
  (alert_per_five_minutes ⟨1, 0, -1⟩ "q").1
    { queueName := "q", history := [⟨0, 50, 0, 0, 1⟩], consecutiveStuck := 0,
      lastAlertTime := 0, lastSlackAlert := 0, lastKnownState := "",
      stuckSince := 0 }
    ⟨"q", "/", 50, 1, 0, 0, 0⟩ fiveMinutes (by decide) (by decide) (by decide)

/-! ## C2: the Healthy-to-Stuck transition fires exactly once -/

theorem updateHistory_length_of_ge (cfg : DetectionConfig)
    (h : List QueueSnapshot) (x : QueueSnapshot)
    (htc : 0 ≤ cfg.thresholdChecks)
    (hge : cfg.thresholdChecks + 1 ≤ (h.length : Int)) :
    (updateHistory cfg h x).length = (cfg.thresholdChecks + 1).toNat := by
  unfold updateHistory
  dsimp only
  rw [if_pos (by simp only [List.length_append, List.length_cons,
    List.length_nil]; push_cast; omega)]
  rw [List.length_drop]
  simp only [List.length_append, List.length_cons, List.length_nil]
  omega

theorem updateHistory_sublist (cfg : DetectionConfig)
    (h : List QueueSnapshot) (x : QueueSnapshot) :
    (updateHistory cfg h x).Sublist (h ++ [x]) := by
  unfold updateHistory
  dsimp only
  split_ifs
  · exact List.drop_sublist _ _
  · exact List.Sublist.refl _

theorem updateHistory_pairwise {R : QueueSnapshot → QueueSnapshot → Prop}
    (cfg : DetectionConfig) (h : List QueueSnapshot) (x : QueueSnapshot)
    (hp : List.Pairwise R (h ++ [x])) :
    List.Pairwise R (updateHistory cfg h x) :=
  List.Pairwise.sublist (updateHistory_sublist cfg h x) hp

theorem updateHistory_mem (cfg : DetectionConfig)
    (h : List QueueSnapshot) (x y : QueueSnapshot)
    (hy : y ∈ updateHistory cfg h x) : y ∈ h ++ [x] :=
  (updateHistory_sublist cfg h x).subset hy

/-- Length of the history after k+1 evaluations, given that k evaluations
produced min k (threshold_checks+1) entries. -/
theorem updateHistory_length_min (cfg : DetectionConfig)
    (h : List QueueSnapshot) (x : QueueSnapshot)
    (htc : 1 ≤ cfg.thresholdChecks) (k : Nat)
    (hl : h.length = min k (cfg.thresholdChecks.toNat + 1)) :
    (updateHistory cfg h x).length
      = min (k + 1) (cfg.thresholdChecks.toNat + 1) := by
  by_cases hk : k + 1 ≤ cfg.thresholdChecks.toNat + 1
  · have hlk : h.length = k := by omega
    rw [updateHistory_length_of_le cfg h x (by rw [hlk]; push_cast; omega)]
    omega
  · have hlk : h.length = cfg.thresholdChecks.toNat + 1 := by omega
    rw [updateHistory_length_of_ge cfg h x (by omega)
      (by rw [hlk]; push_cast; omega)]
    omega

/-- A stagnant verdict needs at least two samples. -/
theorem stagnant_len_two (s : QueueState) (cfg : DetectionConfig)
    (hst : isMessageCountStagnant s cfg = true) : 2 ≤ s.history.length := by
  by_contra hcon
  unfold isMessageCountStagnant at hst
  rw [if_pos (by omega)] at hst
  exact absurd hst (by decide)

/-- A history of at least two samples whose message counts are non-decreasing
and everywhere at least 1 is always stagnant. -/
theorem stagnant_of_monotone (s : QueueState) (cfg : DetectionConfig)
    (htc : 1 ≤ cfg.thresholdChecks)
    (hlen : 2 ≤ s.history.length)
    (hp : List.Pairwise (fun a b => a.messagesReady ≤ b.messagesReady) s.history)
    (hpos : ∀ x ∈ s.history, 1 ≤ x.messagesReady) :
    isMessageCountStagnant s cfg = true := by
  unfold isMessageCountStagnant
  rw [if_neg (by omega)]
  dsimp only
  set r := (if (s.history.length : Int) > cfg.thresholdChecks then
      s.history.drop (s.history.length - cfg.thresholdChecks.toNat)
    else s.history) with hr
  have hsub : r.Sublist s.history := by
    rw [hr]
    split_ifs
    · exact List.drop_sublist _ _
    · exact List.Sublist.refl _
  have hrp : List.Pairwise (fun a b => a.messagesReady ≤ b.messagesReady) r :=
    List.Pairwise.sublist hsub hp
  have hrlen : 0 < r.length := by
    rw [hr]
    split_ifs with hgt
    · rw [List.length_drop]
      omega
    · omega
  have h1 : 1 ≤ r.headI.messagesReady :=
    hpos _ (hsub.subset (headI_mem r hrlen))
  have h2 : 1 ≤ r.getLastI.messagesReady :=
    hpos _ (hsub.subset (getLastI_mem r hrlen))
  have hle := headI_le_getLastI r hrp hrlen
  rcases lt_or_eq_of_le hle with hlt | heq
  · rw [if_neg (by omega), if_pos hlt]
  · rw [if_neg (by omega), if_neg (by omega), if_pos heq.symm]

/-- Stuck verdict at the k+1-st evaluation of a monotone high run: exactly
when both threshold_checks and 2 samples have accumulated. -/
theorem stuck_flag_of_invariant (cfg : DetectionConfig) (S : QueueState)
    (q : QueueInfo) (now : Int)
    (htc : 1 ≤ cfg.thresholdChecks) (hmin : 0 ≤ cfg.minMessageCount) (k : Nat)
    (hlen : S.history.length = min k (cfg.thresholdChecks.toNat + 1))
    (hp : List.Pairwise (fun a b => a.messagesReady ≤ b.messagesReady) S.history)
    (hc : ∀ x ∈ S.history, cfg.minMessageCount + 1 ≤ x.messagesReady)
    (hq : cfg.minMessageCount + 1 ≤ q.messagesReady)
    (hqtop : ∀ x ∈ S.history, x.messagesReady ≤ q.messagesReady) :
    ((isQueueStuck { S with history := updateHistory cfg S.history (snapshotOf q now) } cfg).1 = true
      ↔ max cfg.thresholdChecks.toNat 2 ≤ k + 1) := by
  have hul : (updateHistory cfg S.history (snapshotOf q now)).length
      = min (k + 1) (cfg.thresholdChecks.toNat + 1) :=
    updateHistory_length_min cfg S.history (snapshotOf q now) htc k hlen
  have hup : List.Pairwise (fun a b => a.messagesReady ≤ b.messagesReady)
      (updateHistory cfg S.history (snapshotOf q now)) := by
    apply updateHistory_pairwise
    rw [List.pairwise_append]
    refine ⟨hp, List.pairwise_singleton _ _, ?_⟩
    intro a ha b hb
    rw [List.mem_singleton] at hb
    subst hb
    exact hqtop a ha
  have hum : ∀ x ∈ updateHistory cfg S.history (snapshotOf q now),
      cfg.minMessageCount + 1 ≤ x.messagesReady := by
    intro y hy
    rcases List.mem_append.mp (updateHistory_mem cfg _ _ y hy) with hmem | hmem
    · exact hc y hmem
    · rw [List.mem_singleton] at hmem
      subst hmem
      exact hq
  rw [isQueueStuck_fst_iff]
  dsimp only
  constructor
  · rintro ⟨h1, h2, h3⟩
    have hl2 := stagnant_len_two _ _ h3
    dsimp only at hl2
    rw [hul] at h1 hl2
    push_cast at h1
    omega
  · intro hK
    have hk1 : cfg.thresholdChecks.toNat ≤ k + 1 := by omega
    have hk2 : 2 ≤ k + 1 := by omega
    have hne : 0 < (updateHistory cfg S.history (snapshotOf q now)).length := by
      rw [hul]
      omega
    refine ⟨by rw [hul]; push_cast; omega, ?_, ?_⟩
    · have := hum _ (getLastI_mem _ hne)
      omega
    · apply stagnant_of_monotone _ cfg htc _ hup
      · intro x hx
        have := hum x hx
        omega
      · dsimp only
        rw [hul]
        omega

/-- Field-level facts about one evaluation whose verdict is stuck. -/
theorem analyzeQueueStep_stuck_facts (cfg : DetectionConfig) (s : QueueState)
    (q : QueueInfo) (now : Int)
    (h : (isQueueStuck { s with history := updateHistory cfg s.history (snapshotOf q now) } cfg).1 = true) :
    (analyzeQueueStep cfg s q now).1.consecutiveStuck = s.consecutiveStuck + 1 ∧
    ((analyzeQueueStep cfg s q now).1.lastKnownState
      = (if s.lastKnownState ≠ "stuck" ∧ s.consecutiveStuck + 1 ≥ cfg.thresholdChecks
         then "stuck" else s.lastKnownState)) ∧
    ((analyzeQueueStep cfg s q now).2.2.isSome = true ↔
      (s.lastKnownState ≠ "stuck" ∧ s.consecutiveStuck + 1 ≥ cfg.thresholdChecks)) ∧
    (∀ t, (analyzeQueueStep cfg s q now).2.2 = some t →
      t.fromState = "healthy" ∧ t.toState = "stuck") ∧
    (analyzeQueueStep cfg s q now).1.history
      = updateHistory cfg s.history (snapshotOf q now) := by
  unfold analyzeQueueStep
  dsimp only
  simp only [h]
  split_ifs <;> simp_all

/-- Field-level facts about one evaluation whose verdict is healthy. -/
theorem analyzeQueueStep_healthy_facts (cfg : DetectionConfig) (s : QueueState)
    (q : QueueInfo) (now : Int)
    (h : (isQueueStuck { s with history := updateHistory cfg s.history (snapshotOf q now) } cfg).1 = false) :
    (analyzeQueueStep cfg s q now).1.consecutiveStuck = 0 ∧
    ((analyzeQueueStep cfg s q now).1.lastKnownState
      = (if s.lastKnownState = "stuck" then "healthy" else s.lastKnownState)) ∧
    ((analyzeQueueStep cfg s q now).2.2.isSome = true ↔ s.lastKnownState = "stuck") ∧
    (analyzeQueueStep cfg s q now).1.history
      = updateHistory cfg s.history (snapshotOf q now) := by
  unfold analyzeQueueStep
  dsimp only
  simp only [h, Bool.false_eq_true, if_false]
  split_ifs <;> simp_all

/-- Every evaluation carries the appended-and-trimmed history into the new
state, stuck or healthy. -/
theorem analyzeQueueStep_history (cfg : DetectionConfig) (s : QueueState)
    (q : QueueInfo) (now : Int) :
    (analyzeQueueStep cfg s q now).1.history
      = updateHistory cfg s.history (snapshotOf q now) := by
  unfold analyzeQueueStep
  dsimp only
  split_ifs <;> simp_all

/-- Master invariant of a monotone, always-high run: history shape, counter
value and recorded health state after k evaluations are fully determined. -/
theorem run_invariant (cfg : DetectionConfig) (name : String)
    (inputs : List (QueueInfo × Int))
    (htc : 1 ≤ cfg.thresholdChecks) (hmin : 0 ≤ cfg.minMessageCount)
    (hbig : ∀ i, i < inputs.length →
      cfg.minMessageCount + 1 ≤ (queueAt inputs i).messagesReady)
    (hmono : ∀ i j, i ≤ j → j < inputs.length →
      (queueAt inputs i).messagesReady ≤ (queueAt inputs j).messagesReady)
    (k : Nat) (hk : k ≤ inputs.length) :
    (stateAfter cfg name (inputs.take k)).history.length
      = min k (cfg.thresholdChecks.toNat + 1) ∧
    List.Pairwise (fun a b => a.messagesReady ≤ b.messagesReady)
      (stateAfter cfg name (inputs.take k)).history ∧
    (∀ x ∈ (stateAfter cfg name (inputs.take k)).history,
      cfg.minMessageCount + 1 ≤ x.messagesReady) ∧
    (∀ x ∈ (stateAfter cfg name (inputs.take k)).history, ∀ i, k ≤ i →
      i < inputs.length → x.messagesReady ≤ (queueAt inputs i).messagesReady) ∧
    (stateAfter cfg name (inputs.take k)).consecutiveStuck
      = (if k < max cfg.thresholdChecks.toNat 2 then 0
         else (k : Int) - ((max cfg.thresholdChecks.toNat 2 : Nat) : Int) + 1) ∧
    (stateAfter cfg name (inputs.take k)).lastKnownState
      = (if k < max cfg.thresholdChecks.toNat 2 + cfg.thresholdChecks.toNat - 1
         then "" else "stuck") := by
  induction k with
  | zero =>
    refine ⟨by simp [stateAfter, runState, initialQueueState], List.Pairwise.nil,
      by simp [stateAfter, runState, initialQueueState], ?_, ?_, ?_⟩
    · intro x hx
      simp [stateAfter, runState, initialQueueState] at hx
    · rw [if_pos (by omega)]
      rfl
    · rw [if_pos (by omega)]
      rfl
  | succ k ih =>
    have hk' : k < inputs.length := by omega
    obtain ⟨hA, hB, hC, hG, hE, hF⟩ := ih (by omega)
    rw [stateAfter_take_succ cfg name inputs k hk']
    have hq : cfg.minMessageCount + 1 ≤ (queueAt inputs k).messagesReady :=
      hbig k hk'
    have hqtop : ∀ x ∈ (stateAfter cfg name (inputs.take k)).history,
        x.messagesReady ≤ (queueAt inputs k).messagesReady :=
      fun x hx => hG x hx k (le_refl k) hk'
    have hstuckiff := stuck_flag_of_invariant cfg
      (stateAfter cfg name (inputs.take k)) (queueAt inputs k)
      (timeAt inputs k) htc hmin k hA hB hC hq hqtop
    have hstep : stepAt cfg name inputs k
        = analyzeQueueStep cfg (stateAfter cfg name (inputs.take k))
          (queueAt inputs k) (timeAt inputs k) := rfl
    rw [hstep]
    have hhist := analyzeQueueStep_history cfg
      (stateAfter cfg name (inputs.take k)) (queueAt inputs k) (timeAt inputs k)
    refine ⟨?_, ?_, ?_, ?_, ?_⟩
    · rw [hhist]
      exact updateHistory_length_min cfg _ _ htc k hA
    · rw [hhist]
      apply updateHistory_pairwise
      rw [List.pairwise_append]
      refine ⟨hB, List.pairwise_singleton _ _, ?_⟩
      intro a ha b hb
      rw [List.mem_singleton] at hb
      subst hb
      exact hqtop a ha
    · rw [hhist]
      intro y hy
      rcases List.mem_append.mp (updateHistory_mem cfg _ _ y hy) with hm | hm
      · exact hC y hm
      · rw [List.mem_singleton] at hm
        subst hm
        exact hq
    · rw [hhist]
      intro y hy i hik hin
      rcases List.mem_append.mp (updateHistory_mem cfg _ _ y hy) with hm | hm
      · exact hG y hm i (by omega) hin
      · rw [List.mem_singleton] at hm
        subst hm
        exact hmono k i (by omega) hin
    · by_cases hKk : max cfg.thresholdChecks.toNat 2 ≤ k + 1
      · have hflag := hstuckiff.mpr hKk
        obtain ⟨hcs, hlk, htr, hdir, _⟩ :=
          analyzeQueueStep_stuck_facts cfg _ _ _ hflag
        constructor
        · rw [hcs, hE]
          split_ifs <;> push_cast <;> omega
        · rw [hlk, hF, hE]
          by_cases hkD : k < max cfg.thresholdChecks.toNat 2
              + cfg.thresholdChecks.toNat - 1
          · rw [if_pos hkD]
            by_cases hk1D : k + 1 < max cfg.thresholdChecks.toNat 2
                + cfg.thresholdChecks.toNat - 1
            · rw [if_pos hk1D]
              rw [if_neg (by rintro ⟨hx1, hx2⟩; split_ifs at hx2 <;>
                push_cast at hx2 <;> omega)]
            · rw [if_neg hk1D]
              refine if_pos ⟨by decide, ?_⟩
              split_ifs <;> push_cast <;> omega
          · rw [if_neg hkD, if_neg (show ¬(k + 1 < max cfg.thresholdChecks.toNat 2
                + cfg.thresholdChecks.toNat - 1) by omega)]
            rw [if_neg (by rintro ⟨hx1, _⟩; exact hx1 rfl)]
      · have hflag : (isQueueStuck { stateAfter cfg name (inputs.take k) with history := updateHistory cfg (stateAfter cfg name (inputs.take k)).history (snapshotOf (queueAt inputs k) (timeAt inputs k)) } cfg).1 = false := by
          have hne : ¬ ((isQueueStuck { stateAfter cfg name (inputs.take k) with history := updateHistory cfg (stateAfter cfg name (inputs.take k)).history (snapshotOf (queueAt inputs k) (timeAt inputs k)) } cfg).1 = true) :=
            fun hcon => hKk (hstuckiff.mp hcon)
          exact (Bool.not_eq_true _) ▸ hne
        obtain ⟨hcs, hlk, htr, _⟩ :=
          analyzeQueueStep_healthy_facts cfg _ _ _ hflag
        have hlkk : (stateAfter cfg name (inputs.take k)).lastKnownState = "" := by
          rw [hF, if_pos (by omega)]
        constructor
        · rw [hcs, if_pos (by omega)]
        · rw [hlk, hlkk]
          rw [if_neg (by decide)]
          rw [if_pos (by omega)]

/-- In a monotone always-high run, the k-th evaluation emits a transition
exactly when k+1 = max(threshold_checks,2) + threshold_checks - 1, and any
emitted transition is Healthy to Stuck. -/
theorem transition_characterization (cfg : DetectionConfig) (name : String)
    (inputs : List (QueueInfo × Int))
    (htc : 1 ≤ cfg.thresholdChecks) (hmin : 0 ≤ cfg.minMessageCount)
    (hbig : ∀ i, i < inputs.length →
      cfg.minMessageCount + 1 ≤ (queueAt inputs i).messagesReady)
    (hmono : ∀ i j, i ≤ j → j < inputs.length →
      (queueAt inputs i).messagesReady ≤ (queueAt inputs j).messagesReady)
    (k : Nat) (hk : k < inputs.length) :
    ((transAt cfg name inputs k).isSome = true ↔
      k + 1 = max cfg.thresholdChecks.toNat 2 + cfg.thresholdChecks.toNat - 1) ∧
    (∀ t, transAt cfg name inputs k = some t →
      t.fromState = "healthy" ∧ t.toState = "stuck") := by
  obtain ⟨hA, hB, hC, hG, hE, hF⟩ :=
    run_invariant cfg name inputs htc hmin hbig hmono k (le_of_lt hk)
  have hq := hbig k hk
  have hqtop : ∀ x ∈ (stateAfter cfg name (inputs.take k)).history,
      x.messagesReady ≤ (queueAt inputs k).messagesReady :=
    fun x hx => hG x hx k (le_refl k) hk
  have hstuckiff := stuck_flag_of_invariant cfg
    (stateAfter cfg name (inputs.take k)) (queueAt inputs k)
    (timeAt inputs k) htc hmin k hA hB hC hq hqtop
  have hstep : transAt cfg name inputs k
      = (analyzeQueueStep cfg (stateAfter cfg name (inputs.take k))
        (queueAt inputs k) (timeAt inputs k)).2.2 := rfl
  by_cases hKk : max cfg.thresholdChecks.toNat 2 ≤ k + 1
  · have hflag := hstuckiff.mpr hKk
    obtain ⟨hcs, hlk, htr, hdir, _⟩ :=
      analyzeQueueStep_stuck_facts cfg _ _ _ hflag
    rw [hstep]
    refine ⟨?_, hdir⟩
    rw [htr, hF, hE]
    constructor
    · rintro ⟨h1, h2⟩
      by_cases hkD : k < max cfg.thresholdChecks.toNat 2
          + cfg.thresholdChecks.toNat - 1
      · split_ifs at h2 <;> push_cast at h2 <;> omega
      · exfalso
        apply h1
        rw [if_neg hkD]
    · intro heq
      refine ⟨?_, ?_⟩
      · rw [if_pos (by omega)]
        decide
      · split_ifs <;> push_cast <;> omega
  · have hflag : (isQueueStuck { stateAfter cfg name (inputs.take k) with history := updateHistory cfg (stateAfter cfg name (inputs.take k)).history (snapshotOf (queueAt inputs k) (timeAt inputs k)) } cfg).1 = false := by
      have hne : ¬ ((isQueueStuck { stateAfter cfg name (inputs.take k) with history := updateHistory cfg (stateAfter cfg name (inputs.take k)).history (snapshotOf (queueAt inputs k) (timeAt inputs k)) } cfg).1 = true) :=
        fun hcon => hKk (hstuckiff.mp hcon)
      exact (Bool.not_eq_true _) ▸ hne
    obtain ⟨hcs, hlk, htr, _⟩ := analyzeQueueStep_healthy_facts cfg _ _ _ hflag
    rw [hstep]
    constructor
    · rw [htr, hF, if_pos (by omega)]
      constructor
      · intro hcon
        exact absurd hcon (by decide)
      · intro heq
        omega
    · intro t ht
      exfalso
      have hsome : (analyzeQueueStep cfg (stateAfter cfg name (inputs.take k))
          (queueAt inputs k) (timeAt inputs k)).2.2.isSome = true := by
        rw [ht]
        rfl
      rw [htr, hF, if_pos (by omega)] at hsome
      exact absurd hsome (by decide)

/-- C2: feeding a snapshot sequence with non-decreasing messages_ready, all at
least min_message_count+1, one at a time: a Transition is emitted exactly on
the evaluation at which consecutive_stuck reaches threshold_checks, every
emitted Transition is Healthy to Stuck, and no Transition is ever emitted
again after the first one. -/
theorem transition_fires_exactly_once (cfg : DetectionConfig) (name : String)
    (inputs : List (QueueInfo × Int))
    (htc : 1 ≤ cfg.thresholdChecks) (hmin : 0 ≤ cfg.minMessageCount)
    (hbig : ∀ i, i < inputs.length →
      cfg.minMessageCount + 1 ≤ (queueAt inputs i).messagesReady)
    (hmono : ∀ i j, i ≤ j → j < inputs.length →
      (queueAt inputs i).messagesReady ≤ (queueAt inputs j).messagesReady) :
    (∀ k, k < inputs.length →
      (((transAt cfg name inputs k).isSome = true) ↔
        (stateAfter cfg name (inputs.take (k + 1))).consecutiveStuck
          = cfg.thresholdChecks) ∧
      (∀ t, transAt cfg name inputs k = some t →
        t.fromState = "healthy" ∧ t.toState = "stuck")) ∧
    (∀ j k, j < k → k < inputs.length →
      (transAt cfg name inputs j).isSome = true →
      (transAt cfg name inputs k).isSome = false) := by
  have hcs : ∀ k, k < inputs.length →
      ((stateAfter cfg name (inputs.take (k + 1))).consecutiveStuck
        = cfg.thresholdChecks ↔
      k + 1 = max cfg.thresholdChecks.toNat 2 + cfg.thresholdChecks.toNat - 1) := by
    intro k hk
    obtain ⟨_, _, _, _, hE, _⟩ :=
      run_invariant cfg name inputs htc hmin hbig hmono (k + 1) (by omega)
    rw [hE]
    constructor
    · intro h
      split_ifs at h <;> push_cast at h <;> omega
    · intro h
      rw [if_neg (by omega)]
      push_cast
      omega
  constructor
  · intro k hk
    refine ⟨?_, (transition_characterization cfg name inputs htc hmin hbig
      hmono k hk).2⟩
    rw [(transition_characterization cfg name inputs htc hmin hbig hmono k hk).1,
      hcs k hk]
  · intro j k hjk hk hj
    have h1 := (transition_characterization cfg name inputs htc hmin hbig
      hmono j (by omega)).1.mp hj
    rw [← Bool.not_eq_true]
    intro hcon
    have h2 := (transition_characterization cfg name inputs htc hmin hbig
      hmono k hk).1.mp hcon
    omega

/-- Three identical one-message samples, for the C2 witness. -/
def inputsC2 : List (QueueInfo × Int) :=
  [(⟨"q", "/", 1, 1, 0, 0, 0⟩, 0), (⟨"q", "/", 1, 1, 0, 0, 0⟩, 0),
   (⟨"q", "/", 1, 1, 0, 0, 0⟩, 0)]

/-- Witness for C2: with threshold_checks = 1 the transition fires exactly on
the second evaluation, where consecutive_stuck reaches 1. -/
theorem transition_fires_exactly_once_witness :
    ((transAt ⟨1, 0, 1⟩ "q" inputsC2 1).isSome = true ↔
      (stateAfter ⟨1, 0, 1⟩ "q" (inputsC2.take (1 + 1))).consecutiveStuck = 1) ∧
    (∀ t, transAt ⟨1, 0, 1⟩ "q" inputsC2 1 = some t →
      t.fromState = "healthy" ∧ t.toState = "stuck") :=
  (transition_fires_exactly_once ⟨1, 0, 1⟩ "q" inputsC2 (by decide) (by decide)
    (by
      intro i hi
      have hi3 : i < 3 := by simpa [inputsC2] using hi
      interval_cases i <;> decide)
    (by
      intro i j hij hj
      have hj3 : j < 3 := by simpa [inputsC2] using hj
      interval_cases j <;> interval_cases i <;> decide)).1 1 (by decide)

end RmqMonitor
